import Mathlib

/-!
Shallow embedding of the DevConnector REST backend (Express + Mongoose
tutorial application) and proofs about its route handlers.

The repository's route handlers live in
`routes/api/{users,auth,profile,posts}.js` together with the auth
middleware `middleware/auth.js`.  Each handler is a small pure function of
its inputs (request body/params, the document looked up from the store)
producing an HTTP status, a JSON body and an updated document, so it
embeds directly as a Lean function.  JavaScript array idioms used by the
handlers (`indexOf` returning `-1`, `splice` with a possibly negative
start index) are embedded faithfully below.

Conventions:
- a JavaScript `undefined` request-body field is `none`;
- JSON scalar values carried by request bodies and subdocuments are
  modelled as `String`;
- Mongoose document ids are modelled as `String`;
- a handler returns its HTTP status, its JSON body, and (where relevant)
  the document list state after any `save()` call.
-/

namespace DevConnector

/-- JavaScript `Array.prototype.indexOf`: index of the first occurrence,
`-1` when the element is absent. -/
def jsIndexOf : List String → String → Int
  | [], _ => -1
  | a :: l, x =>
    if a = x then 0
    else
      let r := jsIndexOf l x
      if r < 0 then -1 else r + 1

/-- JavaScript `Array.prototype.splice(start, 1)`: a negative `start`
counts from the end (clamped at 0), a `start` at or past the end removes
nothing; otherwise exactly the element at `start` is removed. -/
def jsSplice1 {α : Type} (l : List α) (i : Int) : List α :=
  let len : Int := l.length
  let start : Nat := if i < 0 then (max (len + i) 0).toNat else i.toNat
  l.take start ++ l.drop (start + 1)

/-! ## Profile experience / education entries (`routes/api/profile.js`)

An experience entry carries the fields copied from the request body in
`router.put('/experience')` (title, company, location, from, to, current,
description) plus the synthetic subdocument id under which it is addressed
by `DELETE /experience/:exp_id`.  Education entries are structurally the
same with their own field names (school, degree, fieldofstudy, from, to,
current, description). -/

structure ExpEntry where
  id : String
  title : Option String
  company : Option String
  location : Option String
  fromDate : Option String
  toDate : Option String
  current : Option String
  description : Option String
deriving Repr, DecidableEq

structure EduEntry where
  id : String
  school : Option String
  degree : Option String
  fieldofstudy : Option String
  fromDate : Option String
  toDate : Option String
  current : Option String
  description : Option String
deriving Repr, DecidableEq

/-- Route `router.put('/experience')` success path:
`profile.experience.unshift(newExp)` — the new entry is prepended; the
fresh subdocument id assigned at `save()` is passed in as `e.id`. -/
def addExperience (experience : List ExpEntry) (e : ExpEntry) : List ExpEntry :=
  e :: experience

/-- Route `router.delete('/experience/:exp_id')` body:
`removeIndex = profile.experience.map(itm => itm.id).indexOf(exp_id)`
followed by `profile.experience.splice(removeIndex, 1)`. -/
def deleteExperience (experience : List ExpEntry) (exp_id : String) : List ExpEntry :=
  jsSplice1 experience (jsIndexOf (experience.map (fun itm => itm.id)) exp_id)

/-- Route `router.delete('/education/:exp_id')` body: the same
`indexOf` / `splice` pattern applied to the education list. -/
def deleteEducation (education : List EduEntry) (exp_id : String) : List EduEntry :=
  jsSplice1 education (jsIndexOf (education.map (fun itm => itm.id)) exp_id)

/-- The delete-experience handler's observable outcome: after the splice
it always reaches `await profile.save(); res.json(profile)`, i.e. HTTP
200 with the (possibly modified) list, whatever `removeIndex` came back. -/
def deleteExperienceHandler (experience : List ExpEntry) (exp_id : String) :
    Nat × List ExpEntry :=
  (200, deleteExperience experience exp_id)

/-- The delete-education handler: same shape as `deleteExperienceHandler`. -/
def deleteEducationHandler (education : List EduEntry) (exp_id : String) :
    Nat × List EduEntry :=
  (200, deleteEducation education exp_id)

/-! ## express-validator chains

A chain `body(field, message)` carries a field name, an error message and
the list of validators attached to it; running a request through a chain
yields the chain's message when some attached validator fails.  A chain
with no attached validators never fails.  The only validator the claims
need is `.not().isEmpty()` (fails on `undefined` and on the empty
string). -/

inductive FieldValidator
  | notEmpty
deriving Repr, DecidableEq

def runFieldValidator : FieldValidator → Option String → Bool
  | .notEmpty, some s => !s.isEmpty
  | .notEmpty, none => false

/-- A request body, accessed by field name. -/
def ReqBody : Type := String → Option String

structure ValidationChain where
  field : String
  message : String
  validators : List FieldValidator

def runChain (req : ReqBody) (c : ValidationChain) : List String :=
  if c.validators.all (fun v => runFieldValidator v (req c.field)) then []
  else [c.message]

/-- Embeds `validationResult(req).array()` as the concatenation of the errors of
each chain installed on the route, in route order. -/
def validationErrors (chains : List ValidationChain) (req : ReqBody) : List String :=
  (chains.map (runChain req)).flatten

/-- The chains installed on `router.put('/experience')` in
`routes/api/profile.js`: `body('title', 'Title is required')`,
`body('company', 'Company is required')`, `body('from', 'From date is
required')` — note that, as written in the source, **no validator is
attached to any of them** (there is no `.not().isEmpty()` call). -/
def experienceChains : List ValidationChain :=
  [⟨"title", "Title is required", []⟩,
   ⟨"company", "Company is required", []⟩,
   ⟨"from", "From date is required", []⟩]

/-- Modelled from the spec: the intended chains for the add-experience
route — "Required fields enumerated per entry type; validation failures
collected and reported together" — i.e. each of title, company and from
carrying a presence check, as every sibling route in the repository
(`users.js`, `auth.js`, `posts.js`, `profile.js` POST `/`) writes it:
`body(field, message).not().isEmpty()`. -/
def experienceChainsIntended : List ValidationChain :=
  [⟨"title", "Title is required", [.notEmpty]⟩,
   ⟨"company", "Company is required", [.notEmpty]⟩,
   ⟨"from", "From date is required", [.notEmpty]⟩]

/-- The `newExp` object built by `router.put('/experience')`: each of the
listed keys is copied from the request body; `freshId` is the synthetic
subdocument id assigned at `save()`. -/
def buildNewExp (req : ReqBody) (freshId : String) : ExpEntry :=
  ⟨freshId, req "title", req "company", req "location",
   req "from", req "to", req "current", req "description"⟩

/-- Route `router.put('/experience')` in full: run the installed chains; on a
non-empty error list respond 400 with the errors and leave the list
alone; otherwise unshift the new entry, save, and respond 200. -/
def addExperienceHandler (req : ReqBody) (experience : List ExpEntry)
    (freshId : String) : (Nat × List String) × List ExpEntry :=
  let errors := validationErrors experienceChains req
  if !errors.isEmpty then ((400, errors), experience)
  else ((200, []), addExperience experience (buildNewExp req freshId))

/-- A request body with every field absent (`undefined`). -/
def emptyReqBody : ReqBody := fun _ => none

/-! ## Posts (`routes/api/posts.js`) -/

/-- A like subdocument: `post.likes.unshift({user: req.user.id})`. -/
structure LikeEntry where
  user : String
deriving Repr, DecidableEq

/-- A comment subdocument as built by `router.post('/comment/:id')`,
with the synthetic subdocument id used by the delete-comment route. -/
structure CommentEntry where
  id : String
  user : String
  text : String
  name : String
  avatar : String
deriving Repr, DecidableEq

structure Post where
  id : String
  user : String
  text : String
  name : String
  avatar : String
  likes : List LikeEntry
  comments : List CommentEntry
deriving Repr, DecidableEq

/-- Embeds `Post.findById` over the post collection, modelled as the first
document whose id matches. -/
def findPostById (store : List Post) (pid : String) : Option Post :=
  store.find? (fun p => p.id == pid)

/-- The body of a response whose success payload is a likes list. -/
inductive LikesBody
  | likesJson (likes : List LikeEntry)
  | bodyMsg (msg : String)
deriving Repr, DecidableEq

/-- Core of `router.put('/like/:id')` once the post is in hand:
if some like's user equals the caller, respond 400 "Post already liked"
and leave the list untouched; otherwise unshift a like for the caller,
save, and respond 200 with the updated list.  Result: (status, body),
list state after the handler. -/
def likeHandler (likes : List LikeEntry) (uid : String) :
    (Nat × LikesBody) × List LikeEntry :=
  if likes.any (fun l => l.user == uid) then
    ((400, .bodyMsg "Post already liked"), likes)
  else
    ((200, .likesJson (⟨uid⟩ :: likes)), ⟨uid⟩ :: likes)

/-- Core of `router.put('/unlike/:id')`: if no like's user equals the
caller, respond 400 "Post has not been liked by user" and leave the
list untouched; otherwise splice out the entry at
`post.likes.map(like => like.user.toString()).indexOf(req.user.id)`. -/
def unlikeHandler (likes : List LikeEntry) (uid : String) :
    (Nat × LikesBody) × List LikeEntry :=
  if !(likes.any (fun l => l.user == uid)) then
    ((400, .bodyMsg "Post has not been liked by user"), likes)
  else
    let spliced := jsSplice1 likes (jsIndexOf (likes.map (fun l => l.user)) uid)
    ((200, .likesJson spliced), spliced)

/-- A JavaScript exception as observed by the posts routes' catch blocks:
a Mongoose `CastError` carries `kind = 'ObjectId'`; a `TypeError` (such
as reading a property of `null`) has no `kind` field. -/
inductive JsErr
  | typeError
  | castError
deriving Repr, DecidableEq

def JsErr.kind : JsErr → Option String
  | .typeError => none
  | .castError => some "ObjectId"

/-- The catch block shared (textually) by the like and unlike routes:
`if (err.kind === 'ObjectId') return 400 'Post not found'; 500 'Server
Error'`. -/
def postCatchBlock (e : JsErr) : Nat × LikesBody :=
  if e.kind == some "ObjectId" then (400, .bodyMsg "Post not found")
  else (500, .bodyMsg "Server Error")

/-- The `try` block of `router.put('/like/:id')`.  `wellFormed` is
whether `req.params.id` parses as an ObjectId: when it does not,
`Post.findById` throws a `CastError`.  When the lookup returns `null`
the handler dereferences `post.likes` on `null`, which throws a
`TypeError` — there is no null check in this route. -/
def likeTryBlock (store : List Post) (pid uid : String) (wellFormed : Bool) :
    Except JsErr (Nat × LikesBody) :=
  if !wellFormed then .error .castError
  else
    match findPostById store pid with
    | none => .error .typeError
    | some post => .ok (likeHandler post.likes uid).1

/-- The `try` block of `router.put('/unlike/:id')`: same null behaviour
as the like route. -/
def unlikeTryBlock (store : List Post) (pid uid : String) (wellFormed : Bool) :
    Except JsErr (Nat × LikesBody) :=
  if !wellFormed then .error .castError
  else
    match findPostById store pid with
    | none => .error .typeError
    | some post => .ok (unlikeHandler post.likes uid).1

/-- Route `router.put('/like/:id')` in full: try block, with exceptions routed
through the catch block. -/
def likeRouteFull (store : List Post) (pid uid : String) (wellFormed : Bool) :
    Nat × LikesBody :=
  match likeTryBlock store pid uid wellFormed with
  | .ok r => r
  | .error e => postCatchBlock e

/-- Route `router.put('/unlike/:id')` in full. -/
def unlikeRouteFull (store : List Post) (pid uid : String) (wellFormed : Bool) :
    Nat × LikesBody :=
  match unlikeTryBlock store pid uid wellFormed with
  | .ok r => r
  | .error e => postCatchBlock e

/-- The body of a response whose success payload is a post or a message. -/
inductive PostRespBody
  | postJson (p : Post)
  | jsonMsg (msg : String)
deriving Repr, DecidableEq

/-- Route `router.get('/:id')`: 404 "Post not found" when the lookup returns
`null`; the catch block maps a malformed id (`err.kind === 'ObjectId'`)
to 400 "Post not found"; otherwise 200 with the post. -/
def getPostRoute (store : List Post) (pid : String) (wellFormed : Bool) :
    Nat × PostRespBody :=
  if !wellFormed then (400, .jsonMsg "Post not found")
  else
    match findPostById store pid with
    | none => (404, .jsonMsg "Post not found")
    | some post => (200, .postJson post)

/-- Route `router.delete('/:id')`: 404 when the lookup returns `null`; 401
"User not authorized to delete post" when the caller is not the post's
owner; otherwise `findByIdAndDelete(post.id)` removes the document and
the route responds 200 "Post removed".  The catch block maps a malformed
id to 400 "Post not found".  Result: (status, body), store after the
call. -/
def deletePostRoute (store : List Post) (pid uid : String) (wellFormed : Bool) :
    (Nat × PostRespBody) × List Post :=
  if !wellFormed then ((400, .jsonMsg "Post not found"), store)
  else
    match findPostById store pid with
    | none => ((404, .jsonMsg "Post not found"), store)
    | some post =>
      if post.user ≠ uid then
        ((401, .jsonMsg "User not authorized to delete post"), store)
      else
        ((200, .jsonMsg "Post removed"), store.eraseP (fun p => p.id == post.id))

/-- Route `router.post('/comment/:id')` success path:
`post.comments.unshift(newComment)`. -/
def commentHandler (comments : List CommentEntry) (c : CommentEntry) :
    List CommentEntry :=
  c :: comments

/-- Route `router.delete('/:id/comment/:comment_id')` once the post is in hand:
`commentIndex = post.comments.map(cmt => cmt.id).indexOf(comment_id)`;
404 "Comment not found" when it is `-1`; 401 "User not authorized" when
the comment at that index is not the caller's; otherwise splice it out,
save, and respond 200 with the updated list.  (The `match` arm for an
out-of-range index mirrors the `TypeError` → 500 path of the catch
block; it is unreachable because the index came from `indexOf`.) -/
def deleteCommentHandler (comments : List CommentEntry) (comment_id uid : String) :
    (Nat × Option String) × List CommentEntry :=
  let commentIndex := jsIndexOf (comments.map (fun cmt => cmt.id)) comment_id
  if commentIndex == -1 then ((404, some "Comment not found"), comments)
  else
    match comments.get? commentIndex.toNat with
    | none => ((500, some "Server Error"), comments)
    | some comment =>
      if comment.user ≠ uid then ((401, some "User not authorized"), comments)
      else ((200, none), jsSplice1 comments commentIndex)

/-- Route `router.post('/')` (create post): the new document carries the text,
the author snapshot and the owner id; its `likes` and `comments` arrays
start empty.  Modelled from the spec for the `Posts` schema defaults
(the models directory is not part of the provided sources): "likes
(ordered list, one per identity, unique) and nested ordered list of
comments", lifecycle "created by owner" — a fresh post has no likes and
no comments. -/
def createPost (pid uid text name avatar : String) : Post :=
  ⟨pid, uid, text, name, avatar, [], []⟩

/-- The state-changing post operations of `routes/api/posts.js`, acting
on a single post document (each route loads the post, runs its handler
core and saves; a guard failure leaves the document as loaded). -/
inductive PostOp
  | likeOp (uid : String)
  | unlikeOp (uid : String)
  | commentOp (c : CommentEntry)
  | deleteCommentOp (comment_id uid : String)

def postStep (p : Post) : PostOp → Post
  | .likeOp uid => {p with likes := (likeHandler p.likes uid).2}
  | .unlikeOp uid => {p with likes := (unlikeHandler p.likes uid).2}
  | .commentOp c => {p with comments := commentHandler p.comments c}
  | .deleteCommentOp comment_id uid =>
      {p with comments := (deleteCommentHandler p.comments comment_id uid).2}

/-- Each identity appears at most once in the post's likes list. -/
def likesUnique (p : Post) : Prop :=
  (p.likes.map (fun l => l.user)).Nodup

/-! ## Token codec and auth gate (`users.js`, `auth.js`, `middleware/auth.js`) -/

/-- A signed token as issued by `jwt.sign(payload, secret, options)`:
the payload is `{user: {id}}`, the options carry `expiresIn` (seconds)
and `audience`.  `iat` is the issue time in seconds. -/
structure Token where
  userId : String
  audience : String
  iat : Nat
  expiresIn : Nat
  secret : String
deriving Repr, DecidableEq

/-- Modelled from the spec: the `jsonwebtoken` library's `sign` —
"produces a signed, time-limited credential encoding the identity id;
signing uses a process-wide shared secret" (§4.1). -/
def jwtSign (userId secret : String) (expiresIn : Nat) (audience : String)
    (iat : Nat) : Token :=
  ⟨userId, audience, iat, expiresIn, secret⟩

/-- Modelled from the spec: the `jsonwebtoken` library's `verify` —
"fails with `InvalidSignature` or `Expired` when the token is malformed,
tampered, or past expiry" (§4.1); on success it returns the decoded
payload, here the encoded identity id. -/
def jwtVerify (t : Token) (secret : String) (now : Nat) : Except String String :=
  if t.secret ≠ secret then .error "JsonWebTokenError"
  else if t.iat + t.expiresIn ≤ now then .error "TokenExpiredError"
  else .ok t.userId

/-- The `jwt.sign` call shared by the registration handler
(`users.js`) and the login handler (`auth.js`): payload
`{user: {id: user.id}}`, options `{expiresIn: 360000, audience: email}`,
secret `config.get('jwtSecret')`. -/
def issueToken (userId email secret : String) (iat : Nat) : Token :=
  jwtSign userId secret 360000 email iat

inductive AuthOutcome
  | reject (status : Nat) (msg : String)
  | proceed (userId : String)
deriving Repr, DecidableEq

/-- Auth gate `middleware/auth.js`: no `x-auth-token` header → 401 "No token,
authorization denied"; `jwt.verify` throws → 401 "Token is not valid";
otherwise `req.user = decoded.user` and the handler proceeds with the
decoded identity id. -/
def authMiddleware (tok : Option Token) (secret : String) (now : Nat) :
    AuthOutcome :=
  match tok with
  | none => .reject 401 "No token, authorization denied"
  | some t =>
    match jwtVerify t secret now with
    | .error _ => .reject 401 "Token is not valid"
    | .ok uid => .proceed uid

/-! ## Login handler (`routes/api/auth.js` POST `/`) -/

structure UserRec where
  id : String
  name : String
  email : String
  password : String
  avatar : String
deriving Repr, DecidableEq

inductive LoginBody
  | errs (msgs : List String)
  | tok (t : Token)
deriving Repr, DecidableEq

/-- Login route `router.post('/')` in `auth.js`, from the `User.findOne` by email
lookup on (the upstream express-validator guard passed for both requests
the claims compare): an absent user → 400 `{errors:[{msg:'Invalid
Credential'}]}`; a failed `bcrypt.compare` (`cmp` abstracts the bcrypt
comparison) → 400 `{errors:[{msg:'Invalid Credential'}]}`; otherwise a
token is issued for `user.id` with the request email as audience. -/
def loginHandler (lookup : Option UserRec) (cmp : String → String → Bool)
    (email password secret : String) (iat : Nat) : Nat × LoginBody :=
  match lookup with
  | none => (400, .errs ["Invalid Credential"])
  | some user =>
    if !(cmp password user.password) then (400, .errs ["Invalid Credential"])
    else (200, .tok (issueToken user.id email secret iat))

/-- Sample experience entry used by concrete witnesses. -/
def expA : ExpEntry :=
  ⟨"e1", some "Engineer", some "Acme", none, some "2020-01-01", none, none, none⟩

/-- Sample education entry used by concrete witnesses. -/
def eduA : EduEntry :=
  ⟨"d1", some "State U", some "BSc", some "CS", some "2015-09-01", none, none, none⟩

/-- Sample post used by concrete witnesses. -/
def postA : Post :=
  ⟨"p1", "owner1", "hello", "Owner", "avatar1", [], []⟩

/-- Sample comment entry used by concrete witnesses. -/
def cmtA : CommentEntry :=
  ⟨"c1", "u1", "nice post", "U One", "avatar2"⟩

/-- Sample user record used by concrete witnesses. -/
def userA : UserRec :=
  ⟨"u1", "U One", "u1@x.com", "bcrypt-hash", "avatar2"⟩

/-! ## Lemmas about the JavaScript array idioms -/

theorem jsIndexOf_eq_neg_one {l : List String} {x : String} (h : x ∉ l) :
    jsIndexOf l x = -1 := by
  induction l with
  | nil => rfl
  | cons a l ih =>
    have ha : a ≠ x := by rintro rfl; exact h (List.mem_cons_self a l)
    have hx : x ∉ l := fun hx => h (List.mem_cons_of_mem a hx)
    simp only [jsIndexOf, if_neg ha, ih hx]
    norm_num

theorem jsIndexOf_nonneg_of_mem {l : List String} {x : String} (h : x ∈ l) :
    0 ≤ jsIndexOf l x := by
  induction l with
  | nil => simp at h
  | cons a l ih =>
    by_cases ha : a = x
    · simp [jsIndexOf, ha]
    · have hx : x ∈ l := by
        rcases List.mem_cons.mp h with h' | h'
        · exact absurd h'.symm ha
        · exact h'
      have := ih hx
      simp only [jsIndexOf, if_neg ha]
      have hnot : ¬(jsIndexOf l x < 0) := not_lt.mpr this
      simp only [if_neg hnot]
      omega

theorem jsSplice1_neg_one {α : Type} (l : List α) :
    jsSplice1 l (-1) = l.dropLast := by
  unfold jsSplice1
  rcases l with _ | ⟨a, l⟩
  · simp
  · have hlen : ((a :: l).length : Int) + (-1) = (l.length : Int) := by
      simp [List.length_cons]
    have hmax : max ((l.length : Int)) 0 = (l.length : Int) := by
      exact max_eq_left (by positivity)
    simp only [hlen, hmax, if_pos (by norm_num : (-1 : Int) < 0), Int.toNat_natCast]
    rw [List.dropLast_eq_take]
    have : l.length + 1 ≥ (a :: l).length := by simp [List.length_cons]
    rw [List.drop_eq_nil_of_le this, List.append_nil]
    simp [List.length_cons]

theorem jsSplice1_zero {α : Type} (a : α) (l : List α) :
    jsSplice1 (a :: l) 0 = l := by
  unfold jsSplice1
  norm_num

theorem jsSplice1_natCast {α : Type} (l : List α) (n : Nat) :
    jsSplice1 l (n : Int) = l.take n ++ l.drop (n + 1) := by
  unfold jsSplice1
  have : ¬((n : Int) < 0) := by omega
  simp [this]

theorem jsSplice1_natCast_succ {α : Type} (a : α) (l : List α) (n : Nat) :
    jsSplice1 (a :: l) ((n : Int) + 1) = a :: jsSplice1 l (n : Int) := by
  have h1 : ((n : Int) + 1) = ((n + 1 : Nat) : Int) := by push_cast; ring
  rw [h1, jsSplice1_natCast, jsSplice1_natCast]
  simp [List.take_succ_cons, List.drop_succ_cons]

theorem jsSplice1_sublist {α : Type} (l : List α) (i : Int) :
    (jsSplice1 l i).Sublist l := by
  unfold jsSplice1
  have key : ∀ s : Nat, (l.take s ++ l.drop (s + 1)).Sublist l := by
    intro s
    conv_rhs => rw [← List.take_append_drop s l]
    have hd : (l.drop (s + 1)).Sublist (l.drop s) := by
      rw [← List.drop_drop]
      exact List.drop_sublist 1 (l.drop s)
    exact hd.append_left _
  exact key _

theorem jsSplice1_jsIndexOf_map {α : Type} (f : α → String) (x : String) :
    ∀ l : List α, x ∈ l.map f →
      jsSplice1 l (jsIndexOf (l.map f) x) = l.eraseP (fun a => f a == x) := by
  intro l
  induction l with
  | nil => intro h; simp at h
  | cons a l ih =>
    intro h
    by_cases hfa : f a = x
    · have h0 : jsIndexOf ((a :: l).map f) x = 0 := by
        simp [jsIndexOf, hfa]
      rw [h0, jsSplice1_zero, List.eraseP_cons_of_pos]
      simp [hfa]
    · have hx : x ∈ l.map f := by
        rw [List.map_cons] at h
        rcases List.mem_cons.mp h with h' | h'
        · exact absurd h'.symm hfa
        · exact h'
      have hnn : 0 ≤ jsIndexOf (l.map f) x := jsIndexOf_nonneg_of_mem hx
      have hrep : jsIndexOf (l.map f) x = ((jsIndexOf (l.map f) x).toNat : Int) :=
        (Int.toNat_of_nonneg hnn).symm
      have hcons : jsIndexOf ((a :: l).map f) x =
          ((jsIndexOf (l.map f) x).toNat : Int) + 1 := by
        simp only [List.map_cons, jsIndexOf, if_neg hfa]
        have hnot : ¬(jsIndexOf (l.map f) x < 0) := not_lt.mpr hnn
        simp only [if_neg hnot]
        omega
      rw [hcons, jsSplice1_natCast_succ, ← hrep, ih hx,
        List.eraseP_cons_of_neg]
      simp [hfa]

/-! ## C1: deleting an absent experience / education id -/

/-- C1 counterexample: on a one-entry experience list and an id not in
the list, the delete-experience handler still reports success (200) but
the list is NOT left unchanged — `indexOf` returns `-1` and
`splice(-1, 1)` removes the last entry. -/
theorem delete_missing_id_not_noop_counterexample :
    (deleteExperienceHandler [expA] "no-such-id").1 = 200 ∧
    (deleteExperienceHandler [expA] "no-such-id").2 ≠ [expA] := by
  constructor
  · rfl
  · decide

/-- C1 amended: for an id not present in the calling identity's list, the
delete-experience (delete-education) handler still reports success, but
it is a no-op only when the list is empty; on a nonempty list it removes
the LAST entry (`indexOf` yields `-1`, and `splice(-1, 1)` deletes the
final element).  In all cases the resulting list is `dropLast` of the
original. -/
theorem delete_missing_id_removes_last_entry
    (experience : List ExpEntry) (education : List EduEntry) (x y : String)
    (hx : x ∉ experience.map (fun itm => itm.id))
    (hy : y ∉ education.map (fun itm => itm.id)) :
    deleteExperienceHandler experience x = (200, experience.dropLast) ∧
    deleteEducationHandler education y = (200, education.dropLast) := by
  constructor
  · unfold deleteExperienceHandler deleteExperience
    rw [jsIndexOf_eq_neg_one hx, jsSplice1_neg_one]
  · unfold deleteEducationHandler deleteEducation
    rw [jsIndexOf_eq_neg_one hy, jsSplice1_neg_one]

theorem delete_missing_id_removes_last_entry_witness :
    deleteExperienceHandler [expA] "no-such-id" = (200, [expA].dropLast) ∧
    deleteEducationHandler [eduA] "no-such-id" = (200, [eduA].dropLast) :=
  delete_missing_id_removes_last_entry [expA] [eduA] "no-such-id" "no-such-id"
    (by decide) (by decide)

/-! ## C6: add-then-delete experience round trip -/

/-- C6: prepending a new experience entry carrying a fresh synthetic id
and then deleting by that id restores the original list: the fresh entry
sits at index 0, `indexOf` finds it there, and `splice(0, 1)` removes
exactly it. -/
theorem add_then_delete_experience_roundtrip
    (experience : List ExpEntry) (e : ExpEntry)
    (_hfresh : e.id ∉ experience.map (fun itm => itm.id)) :
    deleteExperience (addExperience experience e) e.id = experience := by
  unfold deleteExperience addExperience
  have h0 : jsIndexOf ((e :: experience).map (fun itm => itm.id)) e.id = 0 := by
    simp [jsIndexOf]
  rw [h0, jsSplice1_zero]

theorem add_then_delete_experience_roundtrip_witness :
    deleteExperience (addExperience [expA] {expA with id := "e2"}) "e2" = [expA] :=
  add_then_delete_experience_roundtrip [expA] {expA with id := "e2"} (by decide)

/-! ## C2: add-experience validation -/

/-- C2 (code bug): the chains installed on `router.put('/experience')`
carry no validators (`body('title', 'Title is required')` with no
`.not().isEmpty()`), so on a request missing title, company and from the
validation error list is empty, the 400 branch is never taken, and the
handler prepends an entry whose copied fields are all `undefined`.  The
intended chains (as the spec and every sibling route write them) would
have collected and reported all three messages together. -/
theorem add_experience_validation_never_fires
    (experience : List ExpEntry) (freshId : String) :
    validationErrors experienceChains emptyReqBody = [] ∧
    addExperienceHandler emptyReqBody experience freshId =
      ((200, []), ⟨freshId, none, none, none, none, none, none, none⟩ :: experience) ∧
    validationErrors experienceChainsIntended emptyReqBody =
      ["Title is required", "Company is required", "From date is required"] :=
  ⟨rfl, rfl, rfl⟩

/-! ## C3: like / unlike guards -/

/-- C3: `Like` responds 400 "Post already liked" exactly when the caller
already appears in the likes list, and then leaves the list unchanged;
otherwise it prepends a like for the caller.  `Unlike` responds 400
"Post has not been liked by user" exactly when the caller is absent, and
then leaves the list unchanged; otherwise it removes the first (under
uniqueness: the) entry whose user is the caller. -/
theorem like_unlike_guard_spec (likes : List LikeEntry) (uid : String) :
    ((likeHandler likes uid).1 = (400, .bodyMsg "Post already liked") ↔
      uid ∈ likes.map (fun l => l.user)) ∧
    (uid ∈ likes.map (fun l => l.user) → (likeHandler likes uid).2 = likes) ∧
    (uid ∉ likes.map (fun l => l.user) →
      (likeHandler likes uid).2 = ⟨uid⟩ :: likes) ∧
    ((unlikeHandler likes uid).1 = (400, .bodyMsg "Post has not been liked by user") ↔
      uid ∉ likes.map (fun l => l.user)) ∧
    (uid ∉ likes.map (fun l => l.user) → (unlikeHandler likes uid).2 = likes) ∧
    (uid ∈ likes.map (fun l => l.user) →
      (unlikeHandler likes uid).2 = likes.eraseP (fun l => l.user == uid)) := by
  have hmem : (likes.any (fun l => l.user == uid) = true) ↔
      uid ∈ likes.map (fun l => l.user) := by
    simp [List.any_eq_true, List.mem_map]
  by_cases hm : uid ∈ likes.map (fun l => l.user)
  · have hany : likes.any (fun l => l.user == uid) = true := hmem.mpr hm
    refine ⟨?_, ?_, ?_, ?_, ?_, ?_⟩
    · simp [likeHandler, hany, hm]
    · intro _; simp [likeHandler, hany]
    · intro hc; exact absurd hm hc
    · simp [unlikeHandler, hany, hm]
    · intro hc; exact absurd hm hc
    · intro _
      simp only [unlikeHandler, hany, Bool.not_true, if_neg (by simp : ¬(false = true))]
      exact jsSplice1_jsIndexOf_map (fun l => l.user) uid likes hm
  · have hany : likes.any (fun l => l.user == uid) = false :=
      Bool.eq_false_iff.mpr (fun h => hm (hmem.mp h))
    refine ⟨?_, ?_, ?_, ?_, ?_, ?_⟩
    · simp [likeHandler, hany, hm]
    · intro hc; exact absurd hc hm
    · intro _; simp [likeHandler, hany]
    · simp [unlikeHandler, hany, hm]
    · intro _; simp [unlikeHandler, hany]
    · intro hc; exact absurd hc hm

theorem like_unlike_guard_spec_witness :
    (likeHandler [⟨"u1"⟩] "u1").1 = (400, .bodyMsg "Post already liked") ∧
    (unlikeHandler [⟨"u1"⟩] "u1").2 = [] ∧
    (unlikeHandler [⟨"u1"⟩] "u2").1 =
      (400, .bodyMsg "Post has not been liked by user") := by
  have h1 := like_unlike_guard_spec [⟨"u1"⟩] "u1"
  have h2 := like_unlike_guard_spec [⟨"u1"⟩] "u2"
  refine ⟨h1.1.mpr (by decide), ?_, h2.2.2.2.1.mpr (by decide)⟩
  rw [h1.2.2.2.2.2 (by decide)]
  decide

/-! ## C4: uniform invalid-credential response -/

/-- C4: the login handler's "no such email" branch and its "password
hash comparison failed" branch produce literally the same response:
status 400, body `{errors: [{msg: 'Invalid Credential'}]}`. -/
theorem login_uniform_invalid_credential
    (cmp : String → String → Bool) (user : UserRec)
    (email1 password1 email2 password2 secret : String) (iat : Nat)
    (hcmp : cmp password2 user.password = false) :
    loginHandler none cmp email1 password1 secret iat =
      loginHandler (some user) cmp email2 password2 secret iat ∧
    loginHandler none cmp email1 password1 secret iat =
      (400, .errs ["Invalid Credential"]) := by
  constructor
  · simp [loginHandler, hcmp]
  · rfl

theorem login_uniform_invalid_credential_witness :
    loginHandler none (fun _ _ => false) "ghost@x.com" "pw1" "shh" 0 =
      loginHandler (some userA) (fun _ _ => false) "u1@x.com" "pw2" "shh" 0 :=
  (login_uniform_invalid_credential (fun _ _ => false) userA
    "ghost@x.com" "pw1" "u1@x.com" "pw2" "shh" 0 rfl).1

/-! ## C5: deleting a post as a non-owner -/

/-- C5: when the post exists and the caller is not its owner, the delete
route responds 401 "User not authorized to delete post", the store is
returned unchanged, and the post is still found afterwards. -/
theorem delete_post_nonowner_forbidden
    (store : List Post) (pid uid : String) (post : Post)
    (hfind : findPostById store pid = some post)
    (howner : post.user ≠ uid) :
    deletePostRoute store pid uid true =
      ((401, .jsonMsg "User not authorized to delete post"), store) ∧
    findPostById (deletePostRoute store pid uid true).2 pid = some post := by
  have h1 : deletePostRoute store pid uid true =
      ((401, .jsonMsg "User not authorized to delete post"), store) := by
    simp [deletePostRoute, hfind, howner]
  exact ⟨h1, by rw [h1]; exact hfind⟩

theorem delete_post_nonowner_forbidden_witness :
    deletePostRoute [postA] "p1" "intruder" true =
      ((401, .jsonMsg "User not authorized to delete post"), [postA]) ∧
    findPostById (deletePostRoute [postA] "p1" "intruder" true).2 "p1" =
      some postA :=
  delete_post_nonowner_forbidden [postA] "p1" "intruder" postA
    (by decide) (by decide)

/-! ## C7: likes uniqueness invariant -/

theorem any_user_eq_true_iff_mem (likes : List LikeEntry) (uid : String) :
    (likes.any (fun l => l.user == uid) = true) ↔
      uid ∈ likes.map (fun l => l.user) := by
  simp [List.any_eq_true, List.mem_map]

/-- C7: every post operation preserves "each identity appears at most
once in the likes list", and every post state reachable from a freshly
created post by a sequence of like / unlike / comment / delete-comment
operations satisfies it: like only prepends when the caller is absent,
unlike only splices an element out, and the comment operations leave the
likes list alone. -/
theorem likes_unique_invariant :
    (∀ (p : Post) (op : PostOp), likesUnique p → likesUnique (postStep p op)) ∧
    (∀ (pid uid text name avatar : String) (ops : List PostOp),
      likesUnique (ops.foldl postStep (createPost pid uid text name avatar))) := by
  have hstep : ∀ (p : Post) (op : PostOp), likesUnique p → likesUnique (postStep p op) := by
    intro p op hp
    cases op with
    | likeOp uid =>
      show ((likeHandler p.likes uid).2.map (fun l => l.user)).Nodup
      unfold likeHandler
      by_cases hany : p.likes.any (fun l => l.user == uid) = true
      · simpa [hany] using hp
      · have hb : p.likes.any (fun l => l.user == uid) = false :=
          Bool.eq_false_iff.mpr hany
        have hnot : uid ∉ p.likes.map (fun l => l.user) := fun hmem =>
          hany ((any_user_eq_true_iff_mem p.likes uid).mpr hmem)
        simp only [hb, Bool.false_eq_true, if_neg (by simp : ¬False), List.map_cons]
        exact List.nodup_cons.mpr ⟨hnot, hp⟩
    | unlikeOp uid =>
      show ((unlikeHandler p.likes uid).2.map (fun l => l.user)).Nodup
      unfold unlikeHandler
      by_cases hany : p.likes.any (fun l => l.user == uid) = true
      · simp only [hany, Bool.not_true, if_neg (by simp : ¬(false = true))]
        exact hp.sublist ((jsSplice1_sublist _ _).map _)
      · have hb : p.likes.any (fun l => l.user == uid) = false :=
          Bool.eq_false_iff.mpr hany
        simpa [hb] using hp
    | commentOp c => exact hp
    | deleteCommentOp comment_id uid => exact hp
  have hfold : ∀ (ops : List PostOp) (p : Post),
      likesUnique p → likesUnique (ops.foldl postStep p) := by
    intro ops
    induction ops with
    | nil => intro p hp; exact hp
    | cons op ops ih => intro p hp; exact ih _ (hstep p op hp)
  refine ⟨hstep, ?_⟩
  intro pid uid text name avatar ops
  exact hfold ops _ (by simp [likesUnique, createPost])

theorem likes_unique_invariant_witness :
    likesUnique (postStep postA (.likeOp "u1")) ∧
    likesUnique ([PostOp.likeOp "u1", .likeOp "u1", .commentOp cmtA,
      .unlikeOp "u1"].foldl postStep
      (createPost "p1" "owner1" "hello" "Owner" "avatar1")) := by
  refine ⟨likes_unique_invariant.1 postA (.likeOp "u1") ?_,
    likes_unique_invariant.2 "p1" "owner1" "hello" "Owner" "avatar1" _⟩
  simp [likesUnique, postA]

/-! ## C8: not-found versus malformed post ids -/

/-- C8 counterexample: a well-formed id that resolves to no post and a
malformed id both fail with the message "Post not found", but NOT
identically: the statuses are 404 and 400 respectively, so the two
responses differ. -/
theorem notfound_vs_malformed_status_counterexample :
    getPostRoute [] "ffffffffffffffffffffffff" true = (404, .jsonMsg "Post not found") ∧
    getPostRoute [] "short" false = (400, .jsonMsg "Post not found") ∧
    getPostRoute [] "ffffffffffffffffffffffff" true ≠ getPostRoute [] "short" false := by
  refine ⟨rfl, rfl, ?_⟩
  decide

/-- C8 amended: for get-post-by-id and delete-post-by-id, an id that
resolves to no post and a malformed id both fail with the message
"Post not found", but they are NOT treated identically: the response
status is 404 for a well-formed unresolved id and 400 for a malformed
one (the catch block's `err.kind === 'ObjectId'` path). -/
theorem notfound_vs_malformed_same_msg_diff_status
    (store : List Post) (pid pid2 uid : String)
    (hfind : findPostById store pid = none) :
    getPostRoute store pid true = (404, .jsonMsg "Post not found") ∧
    getPostRoute store pid2 false = (400, .jsonMsg "Post not found") ∧
    (deletePostRoute store pid uid true).1 = (404, .jsonMsg "Post not found") ∧
    (deletePostRoute store pid2 uid false).1 = (400, .jsonMsg "Post not found") := by
  refine ⟨?_, rfl, ?_, rfl⟩ <;> simp [getPostRoute, deletePostRoute, hfind]

theorem notfound_vs_malformed_same_msg_diff_status_witness :
    getPostRoute [] "ffffffffffffffffffffffff" true = (404, .jsonMsg "Post not found") ∧
    getPostRoute [] "short" false = (400, .jsonMsg "Post not found") ∧
    (deletePostRoute [] "ffffffffffffffffffffffff" "u1" true).1 =
      (404, .jsonMsg "Post not found") ∧
    (deletePostRoute [] "short" "u1" false).1 = (400, .jsonMsg "Post not found") :=
  notfound_vs_malformed_same_msg_diff_status [] "ffffffffffffffffffffffff"
    "short" "u1" rfl

/-! ## C9: token issue / verify round trip -/

/-- C9: the token issued at registration and login (both call sites pass
identical options) encodes the identity id, carries the email as
audience, and expires in 360000 seconds = 100 hours; presented
unexpired with the same shared secret, the auth middleware verifies it
back to the same identity id. -/
theorem issued_token_roundtrip
    (uid email secret : String) (iat now : Nat)
    (hnow : now < iat + 360000) :
    (issueToken uid email secret iat).userId = uid ∧
    (issueToken uid email secret iat).audience = email ∧
    (issueToken uid email secret iat).expiresIn = 360000 ∧
    (issueToken uid email secret iat).expiresIn = 100 * 60 * 60 ∧
    authMiddleware (some (issueToken uid email secret iat)) secret now =
      .proceed uid := by
  refine ⟨rfl, rfl, rfl, rfl, ?_⟩
  have h2 : ¬(iat + 360000 ≤ now) := not_le.mpr hnow
  unfold authMiddleware jwtVerify issueToken jwtSign
  simp [h2]

theorem issued_token_roundtrip_witness :
    authMiddleware (some (issueToken "u1" "u1@x.com" "shh" 0)) "shh" 3600 =
      .proceed "u1" :=
  (issued_token_roundtrip "u1" "u1@x.com" "shh" 0 3600 (by norm_num)).2.2.2.2

/-! ## C10: like / unlike on a missing (but well-formed) post id -/

/-- C10: when a well-formed post id resolves to no document, the like
and unlike routes do not answer "Post not found": the `null` lookup
makes `post.likes` throw a `TypeError`, whose `kind` is not
`'ObjectId'`, so the catch block answers 500 "Server Error". -/
theorem like_unlike_missing_post_server_error
    (store : List Post) (pid uid : String)
    (hfind : findPostById store pid = none) :
    likeRouteFull store pid uid true = (500, .bodyMsg "Server Error") ∧
    unlikeRouteFull store pid uid true = (500, .bodyMsg "Server Error") ∧
    JsErr.kind .typeError ≠ some "ObjectId" := by
  refine ⟨?_, ?_, by decide⟩ <;>
    simp [likeRouteFull, unlikeRouteFull, likeTryBlock, unlikeTryBlock,
      hfind, postCatchBlock, JsErr.kind]

theorem like_unlike_missing_post_server_error_witness :
    likeRouteFull [] "ffffffffffffffffffffffff" "u1" true =
      (500, .bodyMsg "Server Error") ∧
    unlikeRouteFull [] "ffffffffffffffffffffffff" "u1" true =
      (500, .bodyMsg "Server Error") := by
  have h := like_unlike_missing_post_server_error [] "ffffffffffffffffffffffff"
    "u1" rfl
  exact ⟨h.1, h.2.1⟩

end DevConnector
